import Mathlib

/-!
Shallow embedding of the two scripts of the mosaajiihub/POS PDF-generation
repository: `generate_pdf.py` (pdfkit / wkhtmltopdf backend) and
`generate_pdf_advanced.py` (WeasyPrint backend, reportlab structural
fallback, and the sequencing `main`).

External effects — library imports, the backend conversion calls, the
filesystem — are modelled by an `Env` record fixing their outcomes for the
run; each Python function becomes a total Lean function from `Env` to a
result record collecting its return value and observable side effects
(files written, failure kind reported, log lines printed).  An exception
raised by a backend is a value of `Exc`; a Python `try/except` block
becomes a branch on the modelled outcome of the guarded calls.  Emoji
prefixes and the megabyte formatting of the Python prints are omitted from
the modelled log lines; the reported byte size is kept exactly.
-/

/-- Kind of a failure, following the spec's error taxonomy (§7):
input file absent, library not importable, or the backend raised. -/
inductive ExcKind
  | missingInput
  | importError
  | backendError
deriving DecidableEq, Repr

/-- A Python exception as far as this embedding observes it: its kind and
the human-readable message `str(e)`. -/
structure Exc where
  kind : ExcKind
  msg : String
deriving DecidableEq, Repr

/-- One `div class="detail-row"` of the input document: its
`detail-label` and `detail-content` children as found by `find`
(`none` models a missing child, for which `find` returns Python `None`). -/
structure DetailRow where
  label : Option String
  content : Option String
deriving DecidableEq, Repr

/-- One `div class="business-idea"` block: its `h3` title as found by
`find` (`none` when absent) and its `detail-row` children in document
order. -/
structure BusinessIdea where
  title : Option String
  rows : List DetailRow
deriving DecidableEq, Repr

/-- The parsed input document as the manual-parse fallback sees it:
the `business-idea` blocks in document order. -/
abbrev HtmlDoc := List BusinessIdea

/-- One element appended to the reportlab `story`: a `Paragraph` with its
text and style name, or a `Spacer` with its two arguments. -/
inductive StoryElem
  | paragraph (text : String) (style : String)
  | spacer (width height : Nat)
deriving DecidableEq, Repr

/-- The outcomes of every external effect of one run.  A `none` exception
field means the guarded call succeeds; `some e` means it raises `e`.
Import flags say whether the named library is importable in this process;
`weasyImportAfterInstallOk` is importability after `pip install weasyprint`
has run (import success is stable within one process, so the same flag
answers every later import of that library). -/
structure Env where
  inputExists : Bool
  inputDoc : HtmlDoc
  pdfkitImportOk : Bool
  pdfkitFromFileExc : Option Exc
  weasyImportOk : Bool
  weasyImportAfterInstallOk : Bool
  weasyWritePdfExc : Option Exc
  reportlabImportOk : Bool
  reportlabBuildExc : Option Exc
  pdfSizeBytes : Nat
deriving DecidableEq, Repr

/-- Hard-coded input path shared by all three backends. -/
def htmlFile : String := "/home/mosaajii/Documents/MH-POS/business-ideas-africa.html"

/-- Hard-coded output path of `generate_pdf` and `generate_pdf_weasyprint`. -/
def pdfFileMain : String := "/home/mosaajii/Documents/MH-POS/Top-20-Business-Ideas-Kenya-Africa.pdf"

/-- Hard-coded output path of `generate_pdf_alternative` (note the
`-Simple` suffix: a different file from `pdfFileMain`). -/
def pdfFileSimple : String := "/home/mosaajii/Documents/MH-POS/Top-20-Business-Ideas-Kenya-Africa-Simple.pdf"

/-- The `options` dict of `generate_pdf` (generate_pdf.py lines 19-38),
key by key; a `none` value models a Python `None`-valued flag option, and
the two integer values (`page-offset`, `footer-spacing`) are rendered as
their decimal strings. -/
def pdfkitOptions : List (String × Option String) :=
  [("page-size", some "A4"),
   ("margin-top", some "0.75in"),
   ("margin-right", some "0.75in"),
   ("margin-bottom", some "0.75in"),
   ("margin-left", some "0.75in"),
   ("encoding", some "UTF-8"),
   ("no-outline", none),
   ("enable-local-file-access", none),
   ("print-media-type", none),
   ("disable-smart-shrinking", none),
   ("page-offset", some "0"),
   ("footer-center", some "Page [page] of [topage]"),
   ("footer-font-size", some "9"),
   ("footer-spacing", some "5"),
   ("header-center", some "Top 20 Scalable Business Ideas for Kenya & Africa"),
   ("header-font-size", some "9"),
   ("header-spacing", some "5"),
   ("minimum-font-size", some "12")]

/-- The `@page` rules of the CSS string built in `generate_pdf_weasyprint`
(generate_pdf_advanced.py lines 48-64), structurally: margin, page size,
and the two running texts with their font sizes.  The page counters of the
bottom-center content are rendered as bracketed placeholders. -/
structure WeasyPageCss where
  margin : String
  size : String
  bottomCenterContent : String
  bottomCenterFontSize : String
  topCenterContent : String
  topCenterFontSize : String
deriving DecidableEq, Repr

/-- The concrete page CSS passed to WeasyPrint by
`generate_pdf_weasyprint`. -/
def weasyPdfCss : WeasyPageCss :=
  { margin := "2cm"
    size := "A4"
    bottomCenterContent := "Page [page] of [pages]"
    bottomCenterFontSize := "10pt"
    topCenterContent := "Top 20 Scalable Business Ideas for Kenya & Africa"
    topCenterFontSize := "10pt" }

/-- Result of one backend conversion attempt: the boolean the Python
function returns, the output files it wrote, whether the backend
conversion call itself (`pdfkit.from_file`, `write_pdf`, `doc.build`) was
reached, the byte size it reported on stdout (if any), the kind of
failure it reported (if any), the reportlab story it built (empty for the
other backends), and the log lines printed. -/
structure RenderResult where
  ok : Bool
  written : List String
  convertCalled : Bool
  sizeReported : Option Nat
  reportedFailure : Option ExcKind
  story : List StoryElem
  log : List String
deriving DecidableEq, Repr

/-- `generate_pdf` of generate_pdf.py (lines 11-65).  The whole body is
wrapped in `try/except Exception`; the missing-input case is an explicit
checked `return False` inside the `try`, and a raise from
`pdfkit.from_file` lands in the `except` arm, which prints the message
and returns `False`. -/
def generate_pdf (env : Env) : RenderResult :=
  if !env.inputExists then
    { ok := false
      written := []
      convertCalled := false
      sizeReported := none
      reportedFailure := some .missingInput
      story := []
      log := ["Error: HTML file not found at " ++ htmlFile] }
  else
    match env.pdfkitFromFileExc with
    | some e =>
        { ok := false
          written := []
          convertCalled := true
          sizeReported := none
          reportedFailure := some e.kind
          story := []
          log := ["Converting HTML to PDF...",
                  "Input: " ++ htmlFile,
                  "Output: " ++ pdfFileMain,
                  "Error generating PDF: " ++ e.msg,
                  "Note: This script requires wkhtmltopdf to be installed.",
                  "Install it with: sudo apt-get install wkhtmltopdf"] }
    | none =>
        { ok := true
          written := [pdfFileMain]
          convertCalled := true
          sizeReported := some env.pdfSizeBytes
          reportedFailure := none
          story := []
          log := ["Converting HTML to PDF...",
                  "Input: " ++ htmlFile,
                  "Output: " ++ pdfFileMain,
                  "PDF successfully created: " ++ pdfFileMain,
                  "File size: " ++ toString env.pdfSizeBytes ++ " bytes"] }

/-- Result of an availability-check function.  `returned` is the Python
return value (`none` models Python `None`); `pipInstallRun` records
whether the `pip install` branch executed; `raised` records whether an
exception escaped the function (the embedding shows it never does: every
path below is a normal return). -/
structure InstallResult where
  returned : Option Bool
  pipInstallRun : Bool
  raised : Bool
  log : List String
deriving DecidableEq, Repr

/-- `install_requirements` of generate_pdf.py (lines 67-74).  Both paths
fall off the end of the function, so Python returns `None`; `os.system`
reports failure through its exit status and never raises, so neither does
the function. -/
def install_requirements (env : Env) : InstallResult :=
  if env.pdfkitImportOk then
    { returned := none
      pipInstallRun := false
      raised := false
      log := ["pdfkit is already installed"] }
  else
    { returned := none
      pipInstallRun := true
      raised := false
      log := ["Installing pdfkit..."] }

/-- One run of generate_pdf.py as a script (`__main__` block, lines
76-90): the module-level `import pdfkit` on line 7 runs first, and if it
raises the process dies before any function is called; otherwise
`install_requirements` and then `generate_pdf` run. -/
inductive ModuleRun
  | importFailure
  | ran (instReq : InstallResult) (gen : RenderResult)
deriving DecidableEq, Repr

/-- The `__main__` execution of generate_pdf.py. -/
def generate_pdf_script (env : Env) : ModuleRun :=
  if !env.pdfkitImportOk then .importFailure
  else .ran (install_requirements env) (generate_pdf env)

/-- `install_weasyprint` of generate_pdf_advanced.py (lines 11-26): try
the import; on `ImportError`, run `pip install` and import again inside a
`try/except Exception` that degrades any failure to `return False`. -/
def install_weasyprint (env : Env) : InstallResult :=
  if env.weasyImportOk then
    { returned := some true
      pipInstallRun := false
      raised := false
      log := ["WeasyPrint is already installed"] }
  else if env.weasyImportAfterInstallOk then
    { returned := some true
      pipInstallRun := true
      raised := false
      log := ["Installing WeasyPrint...", "WeasyPrint installed successfully"] }
  else
    { returned := some false
      pipInstallRun := true
      raised := false
      log := ["Installing WeasyPrint...",
              "Failed to install WeasyPrint: No module named weasyprint"] }

/-- Whether `import weasyprint` succeeds at any point after
`install_weasyprint` has run (import success is stable in one process). -/
def weasyAvailable (env : Env) : Bool :=
  env.weasyImportOk || env.weasyImportAfterInstallOk

/-- `generate_pdf_weasyprint` of generate_pdf_advanced.py (lines 28-112).
The `from weasyprint import ...` lines open the `try` body, so an
unimportable library is an `ImportError` caught by the blanket `except`;
then the explicit existence check, then `write_pdf` (whose raise also
lands in the `except` arm). -/
def generate_pdf_weasyprint (env : Env) : RenderResult :=
  if !weasyAvailable env then
    { ok := false
      written := []
      convertCalled := false
      sizeReported := none
      reportedFailure := some .importError
      story := []
      log := ["Error generating PDF with WeasyPrint: No module named weasyprint"] }
  else if !env.inputExists then
    { ok := false
      written := []
      convertCalled := false
      sizeReported := none
      reportedFailure := some .missingInput
      story := []
      log := ["Error: HTML file not found at " ++ htmlFile] }
  else
    match env.weasyWritePdfExc with
    | some e =>
        { ok := false
          written := []
          convertCalled := true
          sizeReported := none
          reportedFailure := some e.kind
          story := []
          log := ["Converting HTML to PDF with WeasyPrint...",
                  "Input: " ++ htmlFile,
                  "Output: " ++ pdfFileMain,
                  "Error generating PDF with WeasyPrint: " ++ e.msg] }
    | none =>
        { ok := true
          written := [pdfFileMain]
          convertCalled := true
          sizeReported := some env.pdfSizeBytes
          reportedFailure := none
          story := []
          log := ["Converting HTML to PDF with WeasyPrint...",
                  "Input: " ++ htmlFile,
                  "Output: " ++ pdfFileMain,
                  "PDF successfully created: " ++ pdfFileMain,
                  "File size: " ++ toString env.pdfSizeBytes ++ " bytes"] }

/-- The title paragraph of the reportlab story (generate_pdf_advanced.py
lines 144-154): the fixed report title in the custom style, then a
`Spacer(1, 20)`. -/
def storyHeader : List StoryElem :=
  [.paragraph "Top 20 Scalable Business Ideas for Kenya & Africa" "CustomTitle",
   .spacer 1 20]

/-- Python `str.strip()` with no argument: remove leading and trailing
whitespace.  (Defined by structural recursion over the character list so
that concrete runs evaluate.) -/
def pyStrip (s : String) : String :=
  String.mk (((s.toList.dropWhile Char.isWhitespace).reverse.dropWhile
    Char.isWhitespace).reverse)

/-- The inner `detail-row` loop of `generate_pdf_alternative` (lines
166-175): a row whose `detail-label` and `detail-content` are both
present contributes one bold-label paragraph and a `Spacer(1, 6)`; any
other row contributes nothing.  Python `.strip()` is `pyStrip`. -/
def detailStory : List DetailRow → List StoryElem
  | [] => []
  | r :: rest =>
      (match r.label, r.content with
       | some l, some c =>
           [.paragraph ("<b>" ++ pyStrip l ++ "</b> " ++ pyStrip c) "Normal",
            .spacer 1 6]
       | _, _ => [])
      ++ detailStory rest

/-- The per-`business-idea` body of the outer loop (lines 157-177): the
`h3` title as a Heading2 paragraph with a `Spacer(1, 12)` when present,
the detail rows, and the trailing `Spacer(1, 20)`. -/
def entryStory (b : BusinessIdea) : List StoryElem :=
  (match b.title with
   | some t => [.paragraph (pyStrip t) "Heading2", .spacer 1 12]
   | none => [])
  ++ detailStory b.rows
  ++ [.spacer 1 20]

/-- The full reportlab story built by `generate_pdf_alternative` for a
parsed document: the title header, then one section per `business-idea`
block in document order. -/
def buildStory (doc : HtmlDoc) : List StoryElem :=
  storyHeader ++ doc.flatMap entryStory

/-- `generate_pdf_alternative` of generate_pdf_advanced.py (lines
114-187).  The imports open the `try` body; `open(html_file)` on a
missing file raises `FileNotFoundError` (a missing-input failure) before
any parsing; `doc.build` may raise; the blanket `except` prints the
message and returns `False`. -/
def generate_pdf_alternative (env : Env) : RenderResult :=
  if !env.reportlabImportOk then
    { ok := false
      written := []
      convertCalled := false
      sizeReported := none
      reportedFailure := some .importError
      story := []
      log := ["Error with alternative method: No module named reportlab"] }
  else if !env.inputExists then
    { ok := false
      written := []
      convertCalled := false
      sizeReported := none
      reportedFailure := some .missingInput
      story := []
      log := ["Using ReportLab alternative method...",
              "Error with alternative method: No such file or directory: " ++ htmlFile] }
  else
    match env.reportlabBuildExc with
    | some e =>
        { ok := false
          written := []
          convertCalled := true
          sizeReported := none
          reportedFailure := some e.kind
          story := buildStory env.inputDoc
          log := ["Using ReportLab alternative method...",
                  "Error with alternative method: " ++ e.msg] }
    | none =>
        { ok := true
          written := [pdfFileSimple]
          convertCalled := true
          sizeReported := none
          reportedFailure := none
          story := buildStory env.inputDoc
          log := ["Using ReportLab alternative method...",
                  "Simple PDF created: " ++ pdfFileSimple] }

/-- Terminal outcome of the sequencing `main`: primary (WeasyPrint)
success, fallback (reportlab) success, or all backends failed. -/
inductive Outcome
  | succeededPrimary
  | succeededFallback
  | allFailed
deriving DecidableEq, Repr

/-- Result of one run of `main` of generate_pdf_advanced.py: the terminal
outcome, which backends were invoked, the files written, whether the
manual step-by-step instructions were printed, and the log. -/
structure MainResult where
  outcome : Outcome
  primaryInvoked : Bool
  fallbackInvoked : Bool
  written : List String
  manualInstructionsPrinted : Bool
  log : List String
deriving DecidableEq, Repr

/-- The banner printed at the top of `main`. -/
def mainHeader : List String :=
  ["Business Ideas PDF Generator", String.mk (List.replicate 50 '=')]

/-- The manual step-by-step instructions printed when every backend
failed (generate_pdf_advanced.py lines 211-217). -/
def manualInstructions : List String :=
  ["Automatic PDF generation failed.",
   "Manual Instructions:",
   "1. Open the file: " ++ htmlFile,
   "2. Open it in your web browser (Chrome, Firefox, etc.)",
   "3. Use Ctrl+P to print",
   "4. Select \x27Save as PDF\x27 as the destination",
   "5. Save as \x27Top-20-Business-Ideas-Kenya-Africa.pdf\x27"]

/-- The second stage of `main` (lines 200-217): `pip install` the
fallback libraries (`os.system` never raises), try
`generate_pdf_alternative`, and fall through to the manual instructions
when it fails.  `logSoFar` and `primaryInvoked` carry the first stage's
observations. -/
def tryAlternative (env : Env) (logSoFar : List String)
    (primaryInvoked : Bool) : MainResult :=
  if (generate_pdf_alternative env).ok then
    { outcome := .succeededFallback
      primaryInvoked := primaryInvoked
      fallbackInvoked := true
      written := (generate_pdf_alternative env).written
      manualInstructionsPrinted := false
      log := logSoFar
             ++ ["Trying alternative PDF generation method..."]
             ++ (generate_pdf_alternative env).log
             ++ ["PDF generation completed with alternative method!"] }
  else
    { outcome := .allFailed
      primaryInvoked := primaryInvoked
      fallbackInvoked := true
      written := (generate_pdf_alternative env).written
      manualInstructionsPrinted := true
      log := logSoFar
             ++ ["Trying alternative PDF generation method..."]
             ++ (generate_pdf_alternative env).log
             ++ manualInstructions }

/-- `main` of generate_pdf_advanced.py (lines 189-217): WeasyPrint first
(only when `install_weasyprint` reports it available), returning
immediately on its success; otherwise the reportlab alternative;
otherwise the manual instructions.  Every path is a normal return.
(Named `main_run` because Lean reserves `main` for executables.) -/
def main_run (env : Env) : MainResult :=
  if (install_weasyprint env).returned = some true then
    if (generate_pdf_weasyprint env).ok then
      { outcome := .succeededPrimary
        primaryInvoked := true
        fallbackInvoked := false
        written := (generate_pdf_weasyprint env).written
        manualInstructionsPrinted := false
        log := mainHeader ++ (install_weasyprint env).log
               ++ (generate_pdf_weasyprint env).log
               ++ ["PDF generation completed successfully with WeasyPrint!"] }
    else
      tryAlternative env
        (mainHeader ++ (install_weasyprint env).log
         ++ (generate_pdf_weasyprint env).log) true
  else
    tryAlternative env (mainHeader ++ (install_weasyprint env).log) false

/-- Modelled from the spec: the section the spec's words promise for one
entry block — a formatted section with the title and "labels verbatim",
i.e. title, label and content texts inserted unchanged (no whitespace
stripping), to be compared with `entryStory`, which is translated from
the code and strips. -/
def entryStoryVerbatim (b : BusinessIdea) : List StoryElem :=
  (match b.title with
   | some t => [.paragraph t "Heading2", .spacer 1 12]
   | none => [])
  ++ (b.rows.flatMap fun r =>
       match r.label, r.content with
       | some l, some c =>
           [.paragraph ("<b>" ++ l ++ "</b> " ++ c) "Normal", .spacer 1 6]
       | _, _ => [])
  ++ [.spacer 1 20]

/-- Modelled from the spec: the full story with every text taken verbatim
from the document (see `entryStoryVerbatim`). -/
def buildStoryVerbatim (doc : HtmlDoc) : List StoryElem :=
  storyHeader ++ doc.flatMap entryStoryVerbatim

/-- A backend exception used by concrete runs below. -/
def excBoom : Exc := { kind := .backendError, msg := "conversion failed" }

/-- A run where every library imports and every backend call succeeds. -/
def envAllOk : Env :=
  { inputExists := true
    inputDoc := []
    pdfkitImportOk := true
    pdfkitFromFileExc := none
    weasyImportOk := true
    weasyImportAfterInstallOk := false
    weasyWritePdfExc := none
    reportlabImportOk := true
    reportlabBuildExc := none
    pdfSizeBytes := 204800 }

/-- A run where the input file does not exist (libraries all import). -/
def envMissing : Env :=
  { envAllOk with inputExists := false }

/-- A run where every backend conversion call raises `excBoom`. -/
def envAllRaise : Env :=
  { envAllOk with
    pdfkitFromFileExc := some excBoom
    weasyWritePdfExc := some excBoom
    reportlabBuildExc := some excBoom }

/-- A run where WeasyPrint is not importable even after installation and
the reportlab build raises: every backend of `main_run` fails. -/
def envAllFail : Env :=
  { envAllOk with
    weasyImportOk := false
    weasyImportAfterInstallOk := false
    reportlabBuildExc := some excBoom }

/-- A failed `generate_pdf_alternative` attempt writes no file. -/
theorem alt_fail_written (env : Env)
    (h : (generate_pdf_alternative env).ok = false) :
    (generate_pdf_alternative env).written = [] := by
  by_cases hr : env.reportlabImportOk
  · by_cases hin : env.inputExists
    · cases hexc : env.reportlabBuildExc with
      | some e => simp [generate_pdf_alternative, hr, hin, hexc]
      | none => simp [generate_pdf_alternative, hr, hin, hexc] at h
    · simp [generate_pdf_alternative, hr, hin]
  · simp [generate_pdf_alternative, hr]

/-- When the alternative backend fails, `tryAlternative` lands in the
all-failed arm: manual instructions, no outcome but `allFailed`. -/
theorem tryAlternative_fail (env : Env) (l : List String) (b : Bool)
    (h : (generate_pdf_alternative env).ok = false) :
    tryAlternative env l b =
      { outcome := .allFailed
        primaryInvoked := b
        fallbackInvoked := true
        written := (generate_pdf_alternative env).written
        manualInstructionsPrinted := true
        log := l ++ ["Trying alternative PDF generation method..."]
               ++ (generate_pdf_alternative env).log ++ manualInstructions } := by
  unfold tryAlternative
  simp [h]

/-- C1: whenever the availability check reports the primary backend
(WeasyPrint) usable and the primary attempt succeeds, `main_run` ends in
`succeededPrimary` and the fallback backend is never invoked — the
sequencer short-circuits after the primary success. -/
theorem C1_primary_success_short_circuits (env : Env)
    (hinst : (install_weasyprint env).returned = some true)
    (hok : (generate_pdf_weasyprint env).ok = true) :
    (main_run env).outcome = .succeededPrimary ∧
    (main_run env).fallbackInvoked = false := by
  unfold main_run
  simp [hinst, hok]

/-- Witness for C1 at the run where everything succeeds. -/
theorem C1_witness :
    (install_weasyprint envAllOk).returned = some true ∧
    (generate_pdf_weasyprint envAllOk).ok = true ∧
    ((main_run envAllOk).outcome = .succeededPrimary ∧
     (main_run envAllOk).fallbackInvoked = false) :=
  ⟨rfl, rfl, C1_primary_success_short_circuits envAllOk rfl rfl⟩

/-- C2: when the input file does not exist, every backend attempt (the
pdfkit one, the WeasyPrint one — its library importable — and the
reportlab one — its libraries importable) returns failure with a
missing-input failure kind, never reaches its backend conversion call,
and writes no output file. -/
theorem C2_missing_input_all_backends (env : Env)
    (hmiss : env.inputExists = false)
    (hw : weasyAvailable env = true)
    (hr : env.reportlabImportOk = true) :
    ((generate_pdf env).ok = false ∧
     (generate_pdf env).reportedFailure = some .missingInput ∧
     (generate_pdf env).convertCalled = false ∧
     (generate_pdf env).written = []) ∧
    ((generate_pdf_weasyprint env).ok = false ∧
     (generate_pdf_weasyprint env).reportedFailure = some .missingInput ∧
     (generate_pdf_weasyprint env).convertCalled = false ∧
     (generate_pdf_weasyprint env).written = []) ∧
    ((generate_pdf_alternative env).ok = false ∧
     (generate_pdf_alternative env).reportedFailure = some .missingInput ∧
     (generate_pdf_alternative env).convertCalled = false ∧
     (generate_pdf_alternative env).written = []) := by
  refine ⟨?_, ?_, ?_⟩
  · simp [generate_pdf, hmiss]
  · simp [generate_pdf_weasyprint, hmiss, hw]
  · simp [generate_pdf_alternative, hmiss, hr]

/-- Witness for C2 at the run whose input file is absent. -/
theorem C2_witness :
    envMissing.inputExists = false ∧
    weasyAvailable envMissing = true ∧
    envMissing.reportlabImportOk = true ∧
    (((generate_pdf envMissing).ok = false ∧
      (generate_pdf envMissing).reportedFailure = some .missingInput ∧
      (generate_pdf envMissing).convertCalled = false ∧
      (generate_pdf envMissing).written = []) ∧
     ((generate_pdf_weasyprint envMissing).ok = false ∧
      (generate_pdf_weasyprint envMissing).reportedFailure = some .missingInput ∧
      (generate_pdf_weasyprint envMissing).convertCalled = false ∧
      (generate_pdf_weasyprint envMissing).written = []) ∧
     ((generate_pdf_alternative envMissing).ok = false ∧
      (generate_pdf_alternative envMissing).reportedFailure = some .missingInput ∧
      (generate_pdf_alternative envMissing).convertCalled = false ∧
      (generate_pdf_alternative envMissing).written = [])) :=
  ⟨rfl, rfl, rfl, C2_missing_input_all_backends envMissing rfl rfl rfl⟩

/-- C3: when the primary path fails (the availability check does not
report success, or the WeasyPrint attempt fails) and the alternative
backend also fails, `main_run` reaches the `allFailed` terminal state,
prints the manual step-by-step instructions, returns normally, and no
output file is written. -/
theorem C3_all_failed_manual_instructions (env : Env)
    (hp : (install_weasyprint env).returned ≠ some true ∨
          (generate_pdf_weasyprint env).ok = false)
    (ha : (generate_pdf_alternative env).ok = false) :
    (main_run env).outcome = .allFailed ∧
    (main_run env).manualInstructionsPrinted = true ∧
    (main_run env).written = [] ∧
    ∃ pre, (main_run env).log = pre ++ manualInstructions := by
  unfold main_run
  by_cases hi : (install_weasyprint env).returned = some true
  · have hw : (generate_pdf_weasyprint env).ok = false := by
      rcases hp with hp | hp
      · exact absurd hi hp
      · exact hp
    rw [if_pos hi, if_neg (by simp [hw]), tryAlternative_fail env _ _ ha]
    exact ⟨rfl, rfl, alt_fail_written env ha, _, rfl⟩
  · rw [if_neg hi, tryAlternative_fail env _ _ ha]
    exact ⟨rfl, rfl, alt_fail_written env ha, _, rfl⟩

/-- Witness for C3 at the run where WeasyPrint is unavailable and the
reportlab build raises. -/
theorem C3_witness :
    ((install_weasyprint envAllFail).returned ≠ some true ∨
     (generate_pdf_weasyprint envAllFail).ok = false) ∧
    (generate_pdf_alternative envAllFail).ok = false ∧
    ((main_run envAllFail).outcome = .allFailed ∧
     (main_run envAllFail).manualInstructionsPrinted = true ∧
     (main_run envAllFail).written = [] ∧
     ∃ pre, (main_run envAllFail).log = pre ++ manualInstructions) :=
  ⟨Or.inl (by decide), rfl,
   C3_all_failed_manual_instructions envAllFail (Or.inl (by decide)) rfl⟩

/-- C4: an exception raised by the underlying backend during the
conversion call of any of the three functions is caught there: the
function returns `False`, reports the failure, and prints the
human-readable message; nothing propagates (each function is total). -/
theorem C4_backend_exceptions_caught (env : Env) (e : Exc) :
    (env.inputExists = true → env.pdfkitFromFileExc = some e →
       (generate_pdf env).ok = false ∧
       (generate_pdf env).reportedFailure = some e.kind ∧
       ("Error generating PDF: " ++ e.msg) ∈ (generate_pdf env).log) ∧
    (weasyAvailable env = true → env.inputExists = true →
     env.weasyWritePdfExc = some e →
       (generate_pdf_weasyprint env).ok = false ∧
       (generate_pdf_weasyprint env).reportedFailure = some e.kind ∧
       ("Error generating PDF with WeasyPrint: " ++ e.msg)
         ∈ (generate_pdf_weasyprint env).log) ∧
    (env.reportlabImportOk = true → env.inputExists = true →
     env.reportlabBuildExc = some e →
       (generate_pdf_alternative env).ok = false ∧
       (generate_pdf_alternative env).reportedFailure = some e.kind ∧
       ("Error with alternative method: " ++ e.msg)
         ∈ (generate_pdf_alternative env).log) := by
  refine ⟨fun h1 h2 => ?_, fun h0 h1 h2 => ?_, fun h0 h1 h2 => ?_⟩
  · simp [generate_pdf, h1, h2]
  · simp [generate_pdf_weasyprint, h0, h1, h2]
  · simp [generate_pdf_alternative, h0, h1, h2]

/-- Witness for C4 at the run where every backend conversion raises. -/
theorem C4_witness :
    ((generate_pdf envAllRaise).ok = false ∧
     (generate_pdf envAllRaise).reportedFailure = some excBoom.kind ∧
     ("Error generating PDF: " ++ excBoom.msg) ∈ (generate_pdf envAllRaise).log) ∧
    ((generate_pdf_weasyprint envAllRaise).ok = false ∧
     (generate_pdf_weasyprint envAllRaise).reportedFailure = some excBoom.kind ∧
     ("Error generating PDF with WeasyPrint: " ++ excBoom.msg)
       ∈ (generate_pdf_weasyprint envAllRaise).log) ∧
    ((generate_pdf_alternative envAllRaise).ok = false ∧
     (generate_pdf_alternative envAllRaise).reportedFailure = some excBoom.kind ∧
     ("Error with alternative method: " ++ excBoom.msg)
       ∈ (generate_pdf_alternative envAllRaise).log) :=
  ⟨(C4_backend_exceptions_caught envAllRaise excBoom).1 rfl rfl,
   (C4_backend_exceptions_caught envAllRaise excBoom).2.1 rfl rfl rfl,
   (C4_backend_exceptions_caught envAllRaise excBoom).2.2 rfl rfl rfl⟩

/-- A document with exactly 3 entry blocks, each with a title and exactly
2 complete labeled detail fields; the first label and content carry
surrounding whitespace in the source text. -/
def docPadded : HtmlDoc :=
  [{ title := some "Mobile Money Agency"
     rows := [{ label := some " Investment: ", content := some " Low " },
              { label := some "Market:", content := some "Local" }] },
   { title := some "Agro Processing"
     rows := [{ label := some "Investment:", content := some "Medium" },
              { label := some "Market:", content := some "Regional" }] },
   { title := some "Solar Installation"
     rows := [{ label := some "Investment:", content := some "High" },
              { label := some "Market:", content := some "National" }] }]

/-- C5 counterexample: `docPadded` satisfies the claim's shape
hypothesis (exactly 3 entries, each with a title and exactly 2 complete
labeled fields), yet the story the fallback builds differs from the
spec-modelled verbatim story, because the code strips surrounding
whitespace from every title, label and content text. -/
theorem C5_counterexample :
    docPadded.length = 3 ∧
    (∀ b ∈ docPadded, b.title.isSome ∧ b.rows.length = 2 ∧
       ∀ r ∈ b.rows, r.label.isSome ∧ r.content.isSome) ∧
    buildStory docPadded ≠ buildStoryVerbatim docPadded := by
  refine ⟨rfl, by decide, ?_⟩
  decide

/-- C5 amended: for every document with exactly 3 entry blocks, each with
a title and exactly 2 complete labeled detail fields, the manual-parse
fallback emits exactly 3 formatted sections in source document order,
each containing both labels and both content values after stripping
leading and trailing whitespace (Python `.strip()`), in row order. -/
theorem C5_three_sections_in_order
    (t1 t2 t3 la1 ca1 lb1 cb1 la2 ca2 lb2 cb2 la3 ca3 lb3 cb3 : String) :
    buildStory
      [{ title := some t1
         rows := [{ label := some la1, content := some ca1 },
                  { label := some lb1, content := some cb1 }] },
       { title := some t2
         rows := [{ label := some la2, content := some ca2 },
                  { label := some lb2, content := some cb2 }] },
       { title := some t3
         rows := [{ label := some la3, content := some ca3 },
                  { label := some lb3, content := some cb3 }] }] =
    storyHeader
    ++ [.paragraph (pyStrip t1) "Heading2", .spacer 1 12,
        .paragraph ("<b>" ++ pyStrip la1 ++ "</b> " ++ pyStrip ca1) "Normal", .spacer 1 6,
        .paragraph ("<b>" ++ pyStrip lb1 ++ "</b> " ++ pyStrip cb1) "Normal", .spacer 1 6,
        .spacer 1 20]
    ++ [.paragraph (pyStrip t2) "Heading2", .spacer 1 12,
        .paragraph ("<b>" ++ pyStrip la2 ++ "</b> " ++ pyStrip ca2) "Normal", .spacer 1 6,
        .paragraph ("<b>" ++ pyStrip lb2 ++ "</b> " ++ pyStrip cb2) "Normal", .spacer 1 6,
        .spacer 1 20]
    ++ [.paragraph (pyStrip t3) "Heading2", .spacer 1 12,
        .paragraph ("<b>" ++ pyStrip la3 ++ "</b> " ++ pyStrip ca3) "Normal", .spacer 1 6,
        .paragraph ("<b>" ++ pyStrip lb3 ++ "</b> " ++ pyStrip cb3) "Normal", .spacer 1 6,
        .spacer 1 20] := by
  simp [buildStory, entryStory, detailStory, storyHeader]

/-- C6 counterexample: the wkhtmltopdf option set does carry 0.75in on
all four sides, but the WeasyPrint backend's page CSS sets its margins to
2cm, so the logical margin configuration is not applied identically
across the backend attempts even though both backends support margins. -/
theorem C6_counterexample :
    pdfkitOptions.lookup "margin-top" = some (some "0.75in") ∧
    pdfkitOptions.lookup "margin-right" = some (some "0.75in") ∧
    pdfkitOptions.lookup "margin-bottom" = some (some "0.75in") ∧
    pdfkitOptions.lookup "margin-left" = some (some "0.75in") ∧
    weasyPdfCss.margin = "2cm" ∧
    weasyPdfCss.margin ≠ "0.75in" := by
  decide

/-- C6 amended: the wkhtmltopdf backend's native option set reflects
0.75in on all four sides unchanged, and the page size and header text are
applied identically across the two renderer backends; but the margins and
the header/footer font size are not applied identically — the WeasyPrint
page CSS uses 2cm margins and 10pt running-text fonts where the
wkhtmltopdf options use 0.75in and 9. -/
theorem C6_margins_not_identical :
    (pdfkitOptions.lookup "margin-top" = some (some "0.75in") ∧
     pdfkitOptions.lookup "margin-right" = some (some "0.75in") ∧
     pdfkitOptions.lookup "margin-bottom" = some (some "0.75in") ∧
     pdfkitOptions.lookup "margin-left" = some (some "0.75in")) ∧
    (pdfkitOptions.lookup "page-size" = some (some weasyPdfCss.size) ∧
     pdfkitOptions.lookup "header-center" =
       some (some weasyPdfCss.topCenterContent)) ∧
    (weasyPdfCss.margin = "2cm" ∧ weasyPdfCss.margin ≠ "0.75in" ∧
     pdfkitOptions.lookup "header-font-size" = some (some "9") ∧
     weasyPdfCss.topCenterFontSize = "10pt") := by
  decide

/-- A run where the WeasyPrint attempt fails (its conversion call raises)
but the reportlab fallback succeeds. -/
def envFallbackOk : Env :=
  { envAllOk with weasyWritePdfExc := some excBoom }

/-- C7 counterexample: a successful conversion through the reportlab
fallback writes its PDF at the `-Simple` path — not the single configured
output path the other backends use — and reports no byte size. -/
theorem C7_counterexample :
    (generate_pdf_alternative envFallbackOk).ok = true ∧
    (generate_pdf_alternative envFallbackOk).written = [pdfFileSimple] ∧
    pdfFileSimple ≠ pdfFileMain ∧
    (generate_pdf_alternative envFallbackOk).sizeReported = none ∧
    (main_run envFallbackOk).outcome = .succeededFallback ∧
    (main_run envFallbackOk).written = [pdfFileSimple] := by
  refine ⟨rfl, rfl, by decide, rfl, ?_, ?_⟩ <;> rfl

/-- C7 amended: every successful conversion writes exactly one PDF file,
but not always at the same path, and not always with a size report: the
wkhtmltopdf and WeasyPrint backends write the main configured path and
report the output's byte size, while the reportlab fallback writes a
different `-Simple` path and reports no byte size. -/
theorem C7_one_file_per_success :
    (∀ env : Env, (generate_pdf env).ok = true →
       (generate_pdf env).written = [pdfFileMain] ∧
       (generate_pdf env).sizeReported = some env.pdfSizeBytes) ∧
    (∀ env : Env, (generate_pdf_weasyprint env).ok = true →
       (generate_pdf_weasyprint env).written = [pdfFileMain] ∧
       (generate_pdf_weasyprint env).sizeReported = some env.pdfSizeBytes) ∧
    (∀ env : Env, (generate_pdf_alternative env).ok = true →
       (generate_pdf_alternative env).written = [pdfFileSimple] ∧
       (generate_pdf_alternative env).sizeReported = none) := by
  refine ⟨fun env h => ?_, fun env h => ?_, fun env h => ?_⟩
  · by_cases hin : env.inputExists
    · cases hexc : env.pdfkitFromFileExc with
      | some e => simp [generate_pdf, hin, hexc] at h
      | none => simp [generate_pdf, hin, hexc]
    · simp [generate_pdf, hin] at h
  · by_cases hw : weasyAvailable env
    · by_cases hin : env.inputExists
      · cases hexc : env.weasyWritePdfExc with
        | some e => simp [generate_pdf_weasyprint, hw, hin, hexc] at h
        | none => simp [generate_pdf_weasyprint, hw, hin, hexc]
      · simp [generate_pdf_weasyprint, hw, hin] at h
    · simp [generate_pdf_weasyprint, hw] at h
  · by_cases hr : env.reportlabImportOk
    · by_cases hin : env.inputExists
      · cases hexc : env.reportlabBuildExc with
        | some e => simp [generate_pdf_alternative, hr, hin, hexc] at h
        | none => simp [generate_pdf_alternative, hr, hin, hexc]
      · simp [generate_pdf_alternative, hr, hin] at h
    · simp [generate_pdf_alternative, hr] at h

/-- Witness for the amended C7 at concrete successful runs of all three
backends. -/
theorem C7_witness :
    ((generate_pdf envAllOk).written = [pdfFileMain] ∧
     (generate_pdf envAllOk).sizeReported = some envAllOk.pdfSizeBytes) ∧
    ((generate_pdf_weasyprint envAllOk).written = [pdfFileMain] ∧
     (generate_pdf_weasyprint envAllOk).sizeReported = some envAllOk.pdfSizeBytes) ∧
    ((generate_pdf_alternative envAllOk).written = [pdfFileSimple] ∧
     (generate_pdf_alternative envAllOk).sizeReported = none) :=
  ⟨C7_one_file_per_success.1 envAllOk rfl,
   C7_one_file_per_success.2.1 envAllOk rfl,
   C7_one_file_per_success.2.2 envAllOk rfl⟩

/-- C8 counterexample: `install_requirements` — the availability check of
generate_pdf.py — returns Python `None` on every path, not a boolean
availability signal. -/
theorem C8_counterexample :
    (install_requirements envAllOk).returned = none ∧
    (install_requirements envAllOk).returned ≠ some true ∧
    (install_requirements envAllOk).returned ≠ some false := by
  decide

/-- C8 amended: `install_weasyprint` returns exactly the boolean
availability of the library and never raises — a failed installation
degrades to `False` after running `pip install` — while
`install_requirements` also never raises but returns `None` rather than
a boolean availability signal. -/
theorem C8_availability_check_degrades :
    (∀ env : Env, (install_weasyprint env).raised = false ∧
       (install_weasyprint env).returned = some (weasyAvailable env)) ∧
    (∀ env : Env, weasyAvailable env = false →
       (install_weasyprint env).returned = some false ∧
       (install_weasyprint env).pipInstallRun = true) ∧
    (∀ env : Env, (install_requirements env).raised = false ∧
       (install_requirements env).returned = none) := by
  refine ⟨fun env => ?_, fun env h => ?_, fun env => ?_⟩
  · by_cases h1 : env.weasyImportOk
    · simp [install_weasyprint, weasyAvailable, h1]
    · by_cases h2 : env.weasyImportAfterInstallOk <;>
        simp [install_weasyprint, weasyAvailable, h1, h2]
  · have h1 : env.weasyImportOk = false := by
      cases hw : env.weasyImportOk
      · rfl
      · rw [weasyAvailable, hw] at h; simp at h
    have h2 : env.weasyImportAfterInstallOk = false := by
      cases hw : env.weasyImportAfterInstallOk
      · rfl
      · rw [weasyAvailable, hw] at h; simp at h
    simp [install_weasyprint, h1, h2]
  · by_cases h1 : env.pdfkitImportOk <;> simp [install_requirements, h1]

/-- Witness for the amended C8 at the run where WeasyPrint is not
importable even after the installation attempt. -/
theorem C8_witness :
    ((install_weasyprint envAllFail).raised = false ∧
     (install_weasyprint envAllFail).returned = some (weasyAvailable envAllFail)) ∧
    ((install_weasyprint envAllFail).returned = some false ∧
     (install_weasyprint envAllFail).pipInstallRun = true) ∧
    ((install_requirements envAllFail).raised = false ∧
     (install_requirements envAllFail).returned = none) :=
  ⟨C8_availability_check_degrades.1 envAllFail,
   C8_availability_check_degrades.2.1 envAllFail rfl,
   C8_availability_check_degrades.2.2 envAllFail⟩

/-- C9: a `detail-row` lacking its label or its content sub-element is
silently skipped by the manual-parse fallback: the row loop, and hence
the whole entry section, emits exactly what it would emit if the
malformed row were not there — no paragraph for the bad row, no error,
and all remaining well-formed rows of the entry in order. -/
theorem C9_malformed_row_skipped (t : Option String)
    (pre post : List DetailRow) (r : DetailRow)
    (h : r.label = none ∨ r.content = none) :
    detailStory (pre ++ r :: post) = detailStory (pre ++ post) ∧
    entryStory { title := t, rows := pre ++ r :: post } =
      entryStory { title := t, rows := pre ++ post } := by
  have hd : detailStory (pre ++ r :: post) = detailStory (pre ++ post) := by
    induction pre with
    | nil =>
        simp only [List.nil_append, detailStory]
        rcases h with h | h <;> rw [h]
        · cases hc : r.content <;> simp
        · cases hl : r.label <;> simp
    | cons a as ih =>
        simp only [List.cons_append, detailStory, List.append_eq, ih]
  exact ⟨hd, by simp only [entryStory, hd]⟩

/-- Witness for C9: an entry whose middle row lacks its content div. -/
theorem C9_witness :
    (({ label := some "Investment:", content := none } : DetailRow).label = none ∨
     ({ label := some "Investment:", content := none } : DetailRow).content = none) ∧
    (detailStory [{ label := some "Market:", content := some "Local" },
                  { label := some "Investment:", content := none },
                  { label := some "Risk Level:", content := some "Low" }] =
     detailStory [{ label := some "Market:", content := some "Local" },
                  { label := some "Risk Level:", content := some "Low" }] ∧
     entryStory { title := some "Mobile Money Agency"
                  rows := [{ label := some "Market:", content := some "Local" },
                           { label := some "Investment:", content := none },
                           { label := some "Risk Level:", content := some "Low" }] } =
     entryStory { title := some "Mobile Money Agency"
                  rows := [{ label := some "Market:", content := some "Local" },
                           { label := some "Risk Level:", content := some "Low" }] }) :=
  ⟨Or.inr rfl,
   C9_malformed_row_skipped (some "Mobile Money Agency")
     [{ label := some "Market:", content := some "Local" }]
     [{ label := some "Risk Level:", content := some "Low" }]
     { label := some "Investment:", content := none } (Or.inr rfl)⟩

/-- C10: in any run of generate_pdf.py as a script, the `pip install`
branch of `install_requirements` is unreachable — the module-level
`import pdfkit` must already have succeeded for execution to reach the
function, so its `try` import succeeds and the `ImportError` branch
never runs. -/
theorem C10_pip_install_branch_unreachable (env : Env)
    (inst : InstallResult) (gen : RenderResult)
    (h : generate_pdf_script env = .ran inst gen) :
    inst.pipInstallRun = false ∧
    inst.log = ["pdfkit is already installed"] := by
  unfold generate_pdf_script at h
  by_cases hp : env.pdfkitImportOk
  · rw [if_neg (by simp [hp])] at h
    injection h with h1 h2
    rw [← h1]
    simp [install_requirements, hp]
  · rw [if_pos (by simp [hp])] at h
    exact absurd h (by simp)

/-- Witness for C10 at a run where the module import succeeds. -/
theorem C10_witness :
    generate_pdf_script envAllOk =
      .ran (install_requirements envAllOk) (generate_pdf envAllOk) ∧
    (install_requirements envAllOk).pipInstallRun = false :=
  ⟨rfl,
   (C10_pip_install_branch_unreachable envAllOk
     (install_requirements envAllOk) (generate_pdf envAllOk) rfl).1⟩
